import Mathlib

/-!
Verification development for the socks5-forwarder relay (src/main.rs).

The program is a TCP relay: `serve` binds a listener, accepts connections in
a loop and spawns one `relay` task per connection; `relay` connects to a
SOCKS5 proxy, performs the handshake (no-auth or username/password depending
on the configured credential), then runs two directional byte copies joined
with tokio try_join, each copy followed by a graceful shutdown of its
destination write half.

The embedding below models, from the source:
- the credential construction in `main` (lines 62-68) and the handshake
  dispatch in `relay` (lines 117-128);
- `relay` (lines 108-148) as a function from an environment describing the
  outcomes of its external I/O operations (proxy connect, handshake, the two
  directional copies) to a trace of its observable effects;
- the semantics of tokio try_join on two futures, as documented by tokio:
  all branches are polled in order on every poll round; when every branch has
  completed with Ok the combined future completes with Ok, and as soon as a
  branch completes with Err the combined future returns that error
  immediately, dropping the branches that have not yet completed;
- `serve` (lines 80-106) as a function from a bind outcome and a list of
  accept-loop events to its return behaviour and the list of spawned relay
  traces.

The SOCKS5 wire negotiation itself lives in the tokio-socks dependency, not
in src/; where a claim needs it, it is modelled from the spec (section 4.2)
and marked as such.
-/

deriving instance DecidableEq for Except

namespace SocksForwarder

/-- SOCKS5 handshake failure taxonomy, following the spec's closed variant
set for errors produced by the handshake (section 7). -/
inductive SocksError
  | noAcceptableAuthMethod
  | authenticationFailed
  | protocolViolation
  | serverReply (code : Nat)
  deriving DecidableEq, Repr

/-- Relay failure taxonomy (spec section 4.3): proxy connect failure,
handshake failure, or an I/O error from the byte-copy phase. -/
inductive RelayError
  | proxyUnreachable
  | handshakeFailed (e : SocksError)
  | ioError (e : Nat)
  deriving DecidableEq, Repr

/-- `ProxyConfig` from src/main.rs lines 74-78. -/
structure ProxyConfig where
  address : String
  credential : Option (String × String)
  deriving DecidableEq, Repr

/-- Credential construction in `main`, src/main.rs lines 64-67: the
credential is `Some((u, p))` exactly when both the username and the password
command-line options are present, regardless of their contents. -/
def mkCredential (proxyUsername proxyPassword : Option String) :
    Option (String × String) :=
  match proxyUsername, proxyPassword with
  | some u, some p => some (u, p)
  | _, _ => none

/-- `ProxyConfig` construction in `main`, src/main.rs lines 62-68. -/
def mkProxyConfig (proxyAddr : String) (proxyUsername proxyPassword : Option String) :
    ProxyConfig :=
  { address := proxyAddr, credential := mkCredential proxyUsername proxyPassword }

/-- Which SOCKS5 connector `relay` invokes. -/
inductive HandshakeKind
  | noAuth
  | withPassword (username password : String)
  deriving DecidableEq, Repr

/-- Handshake dispatch in `relay`, src/main.rs lines 117-128: with no
credential it calls `Socks5Stream::connect_with_socket` (no authentication),
with a credential it calls `Socks5Stream::connect_with_password_and_socket`
with that username and password. -/
def handshakeKind (credential : Option (String × String)) : HandshakeKind :=
  match credential with
  | none => .noAuth
  | some (u, p) => .withPassword u p

/-- Modelled from the spec: the SOCKS5 method negotiation is performed by the
tokio-socks connectors, which are not in src/. Spec section 4.2 step 1:
method 0x00 (no authentication) is always offered, and method 0x02
(username/password) is additionally offered when a credential is
configured. -/
def offeredMethods (credential : Option (String × String)) : List Nat :=
  match handshakeKind credential with
  | .noAuth => [0x00]
  | .withPassword _ _ => [0x00, 0x02]

/-- Modelled from the spec: the server replies with a selected method byte;
a selection the client did not offer is rejected as no acceptable
authentication method (spec section 4.2 step 1). -/
def negotiateMethod (credential : Option (String × String)) (serverChoice : Nat) :
    Except SocksError Nat :=
  if serverChoice ∈ offeredMethods credential then .ok serverChoice
  else .error .noAcceptableAuthMethod

/-- One directional copy of the byte-copy phase, described by the outcomes of
its external I/O: the bytes its source yields before end-of-stream, the
position and code of an I/O error if one occurs mid-copy, an error from the
destination shutdown if any, the abstract poll round at which this
direction's future completes, and how many of its actions had happened if the
future is dropped before completing. -/
structure DirProc where
  src : List Nat
  errAt : Option (Nat × Nat)
  shutdownErr : Option Nat
  time : Nat
  cancelProgress : Nat
  deriving DecidableEq, Repr

/-- Observable actions of one directional copy on its destination half. -/
inductive DirAction
  | write (b : Nat)
  | shutdownDest
  deriving DecidableEq, Repr

/-- The action sequence of one direction when it runs to its own completion,
from src/main.rs lines 133-141: `io::copy` forwards bytes from the source
until end-of-stream or an error; on end-of-stream the destination write half
is then shut down, on a copy error the `?` operator skips the shutdown. -/
def dirActions (d : DirProc) : List DirAction :=
  match d.errAt with
  | none => (d.src.map DirAction.write) ++ [DirAction.shutdownDest]
  | some (k, _) => (d.src.take k).map DirAction.write

/-- The result of one direction's future: the copy error if the copy failed,
else the shutdown error if the shutdown failed, else success. -/
def dirResult (d : DirProc) : Except Nat Unit :=
  match d.errAt with
  | some (_, e) => .error e
  | none =>
    match d.shutdownErr with
    | some e => .error e
    | none => .ok ()

/-- The bytes carried by a sequence of direction actions. -/
def writtenBytes (l : List DirAction) : List Nat :=
  l.filterMap fun a =>
    match a with
    | .write b => some b
    | .shutdownDest => none

/-- Outcome of combining two futures with tokio try_join: the combined
result, and whether each branch ran to its own completion (as opposed to
being dropped when the other branch returned an error first). -/
structure JoinOut where
  result : Except Nat Unit
  firstRan : Bool
  secondRan : Bool
  deriving DecidableEq, Repr

/-- Semantics of `tokio::try_join!(a, b)` from src/main.rs line 144, as
documented by tokio. Branches are polled in order on each round; a branch
completes at its `time`. If both complete with Ok the join completes with Ok
after both. As soon as a branch completes with Err, the error is returned
immediately and the branch that has not yet completed is dropped. On the
round where the first branch errors, the second branch has run to completion
only if it completed on a strictly earlier round (the first branch is polled
first); symmetrically, if the first branch completes Ok on the same round the
second errors, the first has already run. -/
def tryJoin2 (a b : DirProc) : JoinOut :=
  match dirResult a, dirResult b with
  | .ok _, .ok _ => ⟨.ok (), true, true⟩
  | .error e, .ok _ => ⟨.error e, true, decide (b.time < a.time)⟩
  | .ok _, .error e => ⟨.error e, decide (a.time ≤ b.time), true⟩
  | .error e1, .error e2 =>
    if a.time ≤ b.time then ⟨.error e1, true, false⟩
    else ⟨.error e2, false, true⟩

/-- Environment of one `relay` invocation: the outcomes of the proxy TCP
connect (line 116), the SOCKS5 handshake (lines 117-128), and the two
directional copies (client-to-server, lines 133-136, and server-to-client,
lines 138-141). -/
structure RelayEnv where
  connectResult : Except Nat Unit
  handshakeResult : Except SocksError Unit
  c2s : DirProc
  s2c : DirProc
  deriving DecidableEq, Repr

/-- Observable trace of one `relay` invocation: whether the byte-copy phase
was reached, the actions each direction performed on its destination
(client-to-server onto the outbound socket, server-to-client onto the inbound
socket), whether each direction ran to its own completion, and the returned
result. -/
structure RelayTrace where
  copyPhaseStarted : Bool
  c2sActions : List DirAction
  s2cActions : List DirAction
  c2sCompleted : Bool
  s2cCompleted : Bool
  result : Except RelayError Unit
  deriving DecidableEq, Repr

/-- Actions a direction performed: all of them if it ran to completion, an
initial segment of them if its future was dropped mid-flight. -/
def runDir (ran : Bool) (d : DirProc) : List DirAction :=
  if ran then dirActions d else (dirActions d).take d.cancelProgress

/-- `relay` from src/main.rs lines 108-148. A proxy connect failure or a
handshake failure propagates through `?` before the copy phase; otherwise the
two directional copies run under `tokio::try_join!` and the first copy error,
if any, becomes the relay's error. -/
def relay (env : RelayEnv) : RelayTrace :=
  match env.connectResult with
  | .error _ =>
    { copyPhaseStarted := false, c2sActions := [], s2cActions := []
      c2sCompleted := false, s2cCompleted := false
      result := .error .proxyUnreachable }
  | .ok _ =>
    match env.handshakeResult with
    | .error e =>
      { copyPhaseStarted := false, c2sActions := [], s2cActions := []
        c2sCompleted := false, s2cCompleted := false
        result := .error (.handshakeFailed e) }
    | .ok _ =>
      let j := tryJoin2 env.c2s env.s2c
      { copyPhaseStarted := true
        c2sActions := runDir j.firstRan env.c2s
        s2cActions := runDir j.secondRan env.s2c
        c2sCompleted := j.firstRan
        s2cCompleted := j.secondRan
        result :=
          match j.result with
          | .ok _ => .ok ()
          | .error e => .error (.ioError e) }

/-- One iteration's event in the accept loop of `serve`, src/main.rs lines
89-105: `Ok(Some(conn))` carries the accepted connection (described by its
relay environment), `Err(e)` is a recoverable accept error. -/
inductive AcceptEvent
  | conn (env : RelayEnv)
  | acceptError (e : Nat)
  deriving DecidableEq, Repr

/-- A run of `serve`: whether the bind succeeded, the finite sequence of
accept-loop events observed, and whether the listener stream then yields
`Ok(None)` (listener closed). -/
structure ServeRun where
  bindOk : Bool
  events : List AcceptEvent
  closed : Bool
  deriving DecidableEq, Repr

/-- How `serve` ends: an error from the bind, success after listener closure,
or still looping (it has not returned). -/
inductive ServeResult
  | bindError
  | ok
  | looping
  deriving DecidableEq, Repr

/-- The accept loop of `serve`, src/main.rs lines 89-105. `Ok(Some(conn))`
spawns a relay task whose return value is discarded (line 95) and continues;
`Err(e)` logs and continues; when the events are exhausted, `Ok(None)`
returns success and otherwise the loop is still running. Returns the loop's
ending together with the traces of the spawned relay tasks. -/
def serveLoop : List AcceptEvent → Bool → ServeResult × List RelayTrace
  | [], closed => (if closed then .ok else .looping, [])
  | .conn env :: rest, closed =>
    ((serveLoop rest closed).1, relay env :: (serveLoop rest closed).2)
  | .acceptError _ :: rest, closed => serveLoop rest closed

/-- `serve` from src/main.rs lines 80-106: a bind failure propagates through
`?` immediately; otherwise the accept loop runs. -/
def serve (r : ServeRun) : ServeResult × List RelayTrace :=
  if r.bindOk then serveLoop r.events r.closed else (.bindError, [])

/-- Rewrites the relay environment carried by a connection event, leaving
accept errors unchanged; used to state that `serve` never observes any
connection's relay outcome. -/
def mapConn (f : RelayEnv → RelayEnv) : AcceptEvent → AcceptEvent
  | .conn env => .conn (f env)
  | .acceptError e => .acceptError e

/-- Concrete relay environment: the client-to-server copy fails with error
code 7 after one byte at poll round 0, while the server-to-client copy would
reach end-of-stream successfully at round 5. -/
def envErrCancels : RelayEnv :=
  { connectResult := .ok ()
    handshakeResult := .ok ()
    c2s := { src := [1, 2, 3], errAt := some (1, 7), shutdownErr := none, time := 0,
             cancelProgress := 0 }
    s2c := { src := [9, 9], errAt := none, shutdownErr := none, time := 5,
             cancelProgress := 0 } }

/-- Concrete relay environment in which both directions reach end-of-stream
and shut down cleanly. -/
def envBothOk : RelayEnv :=
  { connectResult := .ok ()
    handshakeResult := .ok ()
    c2s := { src := [1], errAt := none, shutdownErr := none, time := 0, cancelProgress := 0 }
    s2c := { src := [2], errAt := none, shutdownErr := none, time := 1, cancelProgress := 0 } }

/-- Concrete relay environment in which both directions reach end-of-stream,
at distinct poll rounds. -/
def envBothEof : RelayEnv :=
  { connectResult := .ok ()
    handshakeResult := .ok ()
    c2s := { src := [5], errAt := none, shutdownErr := none, time := 2, cancelProgress := 0 }
    s2c := { src := [6, 7], errAt := none, shutdownErr := none, time := 4, cancelProgress := 0 } }

/-- Concrete relay environment in which the proxy TCP connect fails. -/
def envConnectFail : RelayEnv :=
  { connectResult := .error 3
    handshakeResult := .ok ()
    c2s := { src := [1], errAt := none, shutdownErr := none, time := 0, cancelProgress := 0 }
    s2c := { src := [2], errAt := none, shutdownErr := none, time := 0, cancelProgress := 0 } }

/-- Concrete relay environment in which the SOCKS5 handshake fails with an
authentication failure. -/
def envHandshakeFail : RelayEnv :=
  { connectResult := .ok ()
    handshakeResult := .error .authenticationFailed
    c2s := { src := [1], errAt := none, shutdownErr := none, time := 0, cancelProgress := 0 }
    s2c := { src := [4, 4], errAt := none, shutdownErr := none, time := 0, cancelProgress := 0 } }

/-! ## Helper lemmas -/

theorem serveLoop_fst (evs : List AcceptEvent) (closed : Bool) :
    (serveLoop evs closed).1 = if closed then ServeResult.ok else ServeResult.looping := by
  induction evs with
  | nil => rfl
  | cons ev rest ih =>
    cases ev with
    | conn env => simpa [serveLoop] using ih
    | acceptError n => simpa [serveLoop] using ih

theorem serveLoop_snd_append (xs ys : List AcceptEvent) (closed : Bool) :
    (serveLoop (xs ++ ys) closed).2 = (serveLoop xs closed).2 ++ (serveLoop ys closed).2 := by
  induction xs with
  | nil => simp [serveLoop]
  | cons ev rest ih =>
    cases ev with
    | conn env => simp [serveLoop, ih]
    | acceptError n => simpa [serveLoop] using ih

theorem negotiateMethod_none (m r : Nat) :
    negotiateMethod none m = .ok r → r = 0x00 := by
  intro h
  by_cases hm : m ∈ offeredMethods (none : Option (String × String))
  · rw [negotiateMethod, if_pos hm] at h
    injection h with h2
    subst h2
    simpa [offeredMethods, handshakeKind] using hm
  · rw [negotiateMethod, if_neg hm] at h
    cases h

/-! ## Claims about credential handling (C2, C3) -/

/-- C2: for every configured credential, if both the username and the
password are present the handshake offers method 0x02 (username/password);
if either is absent, method 0x02 is never offered and any successfully
negotiated method is 0x00 (no authentication). -/
theorem credential_method_selection (u p : Option String) :
    (∀ us ps, u = some us → p = some ps →
      0x02 ∈ offeredMethods (mkCredential u p))
    ∧ ((u = none ∨ p = none) →
      0x02 ∉ offeredMethods (mkCredential u p)
      ∧ ∀ m r, negotiateMethod (mkCredential u p) m = .ok r → r = 0x00) := by
  refine ⟨?_, ?_⟩
  · intro us ps hu hp
    subst hu; subst hp
    simp [mkCredential, offeredMethods, handshakeKind]
  · intro habs
    have hnone : mkCredential u p = none := by
      rcases habs with h | h
      · subst h; cases p <;> rfl
      · subst h; cases u <;> rfl
    rw [hnone]
    exact ⟨by simp [offeredMethods, handshakeKind], negotiateMethod_none⟩

/-- Witness for `credential_method_selection` at concrete credentials. -/
theorem credential_method_selection_witness :
    0x02 ∈ offeredMethods (mkCredential (some "alice") (some "secret"))
    ∧ 0x02 ∉ offeredMethods (mkCredential none none) :=
  ⟨(credential_method_selection (some "alice") (some "secret")).1 "alice" "secret" rfl rfl,
   ((credential_method_selection none none).2 (Or.inl rfl)).1⟩

/-- C3 counterexample: with both options present but holding empty strings,
`main` builds the credential `Some(("", ""))`, so `relay` takes the
username/password connector and method 0x02 is offered: empty credentials
are not treated the same as absent credentials. -/
theorem empty_credential_uses_password_method :
    mkCredential (some "") (some "") = some ("", "")
    ∧ handshakeKind (mkCredential (some "") (some "")) ≠ HandshakeKind.noAuth
    ∧ 0x02 ∈ offeredMethods (mkCredential (some "") (some "")) := by
  refine ⟨rfl, ?_, by simp [mkCredential, offeredMethods, handshakeKind]⟩
  simp [mkCredential, handshakeKind]

/-- C3 (amended): the handshake behaves as no-auth exactly when the username
option or the password option is absent; a present-but-empty username and
password still select the username/password method. -/
theorem noauth_iff_credential_absent (u p : Option String) :
    handshakeKind (mkCredential u p) = HandshakeKind.noAuth ↔ (u = none ∨ p = none) := by
  cases u <;> cases p <;> simp [mkCredential, handshakeKind]

/-- Witness for `noauth_iff_credential_absent` at a concrete input. -/
theorem noauth_iff_credential_absent_witness :
    handshakeKind (mkCredential none (some "x")) = HandshakeKind.noAuth :=
  (noauth_iff_credential_absent none (some "x")).mpr (Or.inl rfl)

/-! ## Claims about the accept loop (C6, C7, C8, C10) -/

/-- C6: per-connection containment: a connection contributes exactly its own
relay trace in its own slot of the spawned-task list, leaving every sibling
connection's trace untouched, and the ending of `serve` is exactly what it
would be had that connection never arrived. -/
theorem connection_error_containment (pre post : List AcceptEvent) (env : RelayEnv)
    (closed : Bool) :
    (serve ⟨true, pre ++ .conn env :: post, closed⟩).2
      = (serve ⟨true, pre, closed⟩).2 ++ relay env :: (serve ⟨true, post, closed⟩).2
    ∧ (serve ⟨true, pre ++ .conn env :: post, closed⟩).1
      = (serve ⟨true, pre ++ post, closed⟩).1 := by
  constructor
  · simp [serve, serveLoop_snd_append, serveLoop]
  · simp [serve, serveLoop_fst]

/-- C7: a recoverable accept error is logged and the loop continues: a run
with an accept error inserted anywhere is indistinguishable from the run
without it, so the listener never terminates because of a single bad
accept. -/
theorem accept_error_continues (pre post : List AcceptEvent) (e : Nat) (closed : Bool) :
    serve ⟨true, pre ++ .acceptError e :: post, closed⟩ = serve ⟨true, pre ++ post, closed⟩ := by
  simp only [serve, if_pos]
  induction pre with
  | nil => rfl
  | cons ev rest ih =>
    cases ev with
    | conn env => simp [serveLoop, ih]
    | acceptError n => simpa [serveLoop] using ih

/-- C8: `serve` ends with an error exactly when the bind fails, returns
success exactly when the listener signals closure after the observed events,
and otherwise is still looping: these are the only ways it returns. -/
theorem serve_return_conditions (r : ServeRun) :
    ((serve r).1 = ServeResult.bindError ↔ r.bindOk = false)
    ∧ ((serve r).1 = ServeResult.ok ↔ r.bindOk = true ∧ r.closed = true)
    ∧ ((serve r).1 = ServeResult.looping ↔ r.bindOk = true ∧ r.closed = false) := by
  obtain ⟨b, evs, c⟩ := r
  cases b <;> cases c <;> simp [serve, serveLoop_fst]

/-- Witness for `serve_return_conditions` at a concrete run. -/
theorem serve_return_conditions_witness :
    (serve ⟨false, [], false⟩).1 = ServeResult.bindError :=
  (serve_return_conditions ⟨false, [], false⟩).1.mpr rfl

/-- C10: the spawned task discards the result of `relay` (src/main.rs line
95): the ending of `serve` is invariant under arbitrarily changing every
connection's relay environment, hence under every relay success or failure;
no relay outcome is ever observed outside its own task. -/
theorem relay_result_discarded (f : RelayEnv → RelayEnv) (r : ServeRun) :
    (serve ⟨r.bindOk, r.events.map (mapConn f), r.closed⟩).1 = (serve r).1 := by
  obtain ⟨b, evs, c⟩ := r
  cases b
  · rfl
  · simp [serve, serveLoop_fst]

/-! ## Helper lemmas about the copy phase -/

theorem tryJoin2_ok_ok (a b : DirProc) (ha : dirResult a = .ok ()) (hb : dirResult b = .ok ()) :
    tryJoin2 a b = ⟨.ok (), true, true⟩ := by
  simp only [tryJoin2, ha, hb]

theorem tryJoin2_err_first (a b : DirProc) (e : Nat) (ha : dirResult a = .error e)
    (ht : a.time ≤ b.time) :
    (tryJoin2 a b).result = .error e ∧ (tryJoin2 a b).secondRan = false := by
  have hlt : ¬ b.time < a.time := Nat.not_lt.mpr ht
  cases hb : dirResult b with
  | ok v =>
    cases v
    refine ⟨by simp [tryJoin2, ha, hb], by simp [tryJoin2, ha, hb, hlt]⟩
  | error e2 =>
    refine ⟨by simp [tryJoin2, ha, hb, if_pos ht], by simp [tryJoin2, ha, hb, if_pos ht]⟩

theorem tryJoin2_err_second (a b : DirProc) (e : Nat) (hb : dirResult b = .error e)
    (ht : b.time < a.time) :
    (tryJoin2 a b).result = .error e ∧ (tryJoin2 a b).firstRan = false := by
  have hle : ¬ a.time ≤ b.time := Nat.not_le.mpr ht
  cases ha : dirResult a with
  | ok v =>
    cases v
    refine ⟨by simp [tryJoin2, ha, hb], by simp [tryJoin2, ha, hb, hle]⟩
  | error e1 =>
    refine ⟨by simp [tryJoin2, ha, hb, if_neg hle], by simp [tryJoin2, ha, hb, if_neg hle]⟩

theorem tryJoin2_first_ok_runs_second (a b : DirProc) (ha : dirResult a = .ok ()) :
    (tryJoin2 a b).secondRan = true := by
  cases hb : dirResult b with
  | ok v => cases v; simp [tryJoin2, ha, hb]
  | error e => simp [tryJoin2, ha, hb]

theorem tryJoin2_second_ok_runs_first (a b : DirProc) (hb : dirResult b = .ok ()) :
    (tryJoin2 a b).firstRan = true := by
  cases ha : dirResult a with
  | ok v => cases v; simp [tryJoin2, ha, hb]
  | error e => simp [tryJoin2, ha, hb]

theorem relay_copyPhase (env : RelayEnv) (hc : env.connectResult = .ok ())
    (hh : env.handshakeResult = .ok ()) :
    relay env =
      { copyPhaseStarted := true
        c2sActions := runDir (tryJoin2 env.c2s env.s2c).firstRan env.c2s
        s2cActions := runDir (tryJoin2 env.c2s env.s2c).secondRan env.s2c
        c2sCompleted := (tryJoin2 env.c2s env.s2c).firstRan
        s2cCompleted := (tryJoin2 env.c2s env.s2c).secondRan
        result :=
          match (tryJoin2 env.c2s env.s2c).result with
          | .ok _ => .ok ()
          | .error e => .error (.ioError e) } := by
  simp only [relay, hc, hh]

theorem writtenBytes_append (xs ys : List DirAction) :
    writtenBytes (xs ++ ys) = writtenBytes xs ++ writtenBytes ys := by
  simp [writtenBytes, List.filterMap_append]

theorem writtenBytes_map_write (l : List Nat) :
    writtenBytes (l.map DirAction.write) = l := by
  induction l with
  | nil => rfl
  | cons b bs ih => simpa [writtenBytes, List.filterMap_cons] using ih

theorem writtenBytes_mono (xs ys : List DirAction) (h : xs <+: ys) :
    writtenBytes xs <+: writtenBytes ys := by
  obtain ⟨t, rfl⟩ := h
  exact ⟨writtenBytes t, (writtenBytes_append xs t).symm⟩

theorem writtenBytes_dirActions (d : DirProc) :
    writtenBytes (dirActions d) <+: d.src := by
  cases he : d.errAt with
  | none =>
    simp only [dirActions, he, writtenBytes_append, writtenBytes_map_write]
    simp [writtenBytes]
  | some ke =>
    obtain ⟨k, e⟩ := ke
    simp only [dirActions, he, writtenBytes_map_write]
    exact List.take_prefix k d.src

theorem writtenBytes_runDir (ran : Bool) (d : DirProc) :
    writtenBytes (runDir ran d) <+: d.src := by
  cases ran with
  | false =>
    have h1 : runDir false d = (dirActions d).take d.cancelProgress := by simp [runDir]
    rw [h1]
    exact (writtenBytes_mono _ _ (List.take_prefix _ _)).trans (writtenBytes_dirActions d)
  | true =>
    have h1 : runDir true d = dirActions d := by simp [runDir]
    rw [h1]
    exact writtenBytes_dirActions d

/-! ## Claims about the relay (C1, C4, C5, C9) -/

/-- C1 counterexample: with the client-to-server copy erroring first, `relay`
returns the I/O error while the server-to-client direction, which would have
reached end-of-stream successfully, never concludes and forwards nothing: on
error the two copies are raced, the unfinished direction dropped and its
outcome suppressed, not joined. -/
theorem relay_error_cancels_other :
    (relay envErrCancels).result = .error (.ioError 7)
    ∧ (relay envErrCancels).s2cCompleted = false
    ∧ dirResult envErrCancels.s2c = .ok ()
    ∧ (relay envErrCancels).s2cActions = [] :=
  ⟨rfl, rfl, rfl, rfl⟩

/-- C1 (amended): when both directional copies (and their shutdowns) succeed,
the relay completes only after both have finished and returns success, one
direction finishing without cancelling the other; but if either copy errors,
tokio try_join surfaces that error as an I/O relay error immediately, and a
direction that has not concluded by then is cancelled, its outcome
suppressed, rather than drained to completion. -/
theorem relay_join_semantics (env : RelayEnv)
    (hc : env.connectResult = .ok ()) (hh : env.handshakeResult = .ok ()) :
    (dirResult env.c2s = .ok () → dirResult env.s2c = .ok () →
      (relay env).c2sCompleted = true ∧ (relay env).s2cCompleted = true
      ∧ (relay env).result = .ok ())
    ∧ (∀ e, dirResult env.c2s = .error e → env.c2s.time ≤ env.s2c.time →
      (relay env).result = .error (.ioError e) ∧ (relay env).s2cCompleted = false)
    ∧ (∀ e, dirResult env.s2c = .error e → env.s2c.time < env.c2s.time →
      (relay env).result = .error (.ioError e) ∧ (relay env).c2sCompleted = false) := by
  rw [relay_copyPhase env hc hh]
  refine ⟨?_, ?_, ?_⟩
  · intro h1 h2
    rw [tryJoin2_ok_ok env.c2s env.s2c h1 h2]
    exact ⟨rfl, rfl, rfl⟩
  · intro e he ht
    obtain ⟨h1, h2⟩ := tryJoin2_err_first env.c2s env.s2c e he ht
    refine ⟨?_, h2⟩
    simp only [h1]
  · intro e he ht
    obtain ⟨h1, h2⟩ := tryJoin2_err_second env.c2s env.s2c e he ht
    refine ⟨?_, h2⟩
    simp only [h1]

/-- Witness for `relay_join_semantics` at a concrete both-successful
environment. -/
theorem relay_join_semantics_witness :
    (relay envBothOk).c2sCompleted = true ∧ (relay envBothOk).s2cCompleted = true
    ∧ (relay envBothOk).result = .ok () :=
  (relay_join_semantics envBothOk rfl rfl).1 rfl rfl

/-- C4: in the byte-copy phase, a direction that runs to completion with its
source at end-of-stream performs the graceful shutdown (half-close) of its
destination write half, and a direction whose copy and shutdown succeed never
cancels the opposite direction, which runs to its own completion
independently. -/
theorem eof_halfclose_independent (env : RelayEnv)
    (hc : env.connectResult = .ok ()) (hh : env.handshakeResult = .ok ()) :
    ((relay env).c2sCompleted = true → env.c2s.errAt = none →
      DirAction.shutdownDest ∈ (relay env).c2sActions)
    ∧ (dirResult env.c2s = .ok () → (relay env).s2cCompleted = true)
    ∧ ((relay env).s2cCompleted = true → env.s2c.errAt = none →
      DirAction.shutdownDest ∈ (relay env).s2cActions)
    ∧ (dirResult env.s2c = .ok () → (relay env).c2sCompleted = true) := by
  rw [relay_copyPhase env hc hh]
  refine ⟨?_, ?_, ?_, ?_⟩
  · intro hran herr
    simp only at hran
    simp [runDir, hran, dirActions, herr]
  · intro h
    simpa using tryJoin2_first_ok_runs_second env.c2s env.s2c h
  · intro hran herr
    simp only at hran
    simp [runDir, hran, dirActions, herr]
  · intro h
    simpa using tryJoin2_second_ok_runs_first env.c2s env.s2c h

/-- Witness for `eof_halfclose_independent` at a concrete environment. -/
theorem eof_halfclose_independent_witness :
    DirAction.shutdownDest ∈ (relay envBothEof).c2sActions
    ∧ (relay envBothEof).s2cCompleted = true :=
  ⟨(eof_halfclose_independent envBothEof rfl rfl).1 rfl rfl,
   (eof_halfclose_independent envBothEof rfl rfl).2.1 rfl⟩

/-- C5: the handshake fully completes before any relay byte is forwarded: a
proxy connect failure or a SOCKS5 handshake failure ends the relay with the
corresponding error before the byte-copy phase starts and with neither
direction performing any action; conversely the copy phase starts only when
the connect and the handshake both succeeded. -/
theorem handshake_before_relay (env : RelayEnv) :
    (∀ e, env.connectResult = .error e →
      (relay env).copyPhaseStarted = false ∧ (relay env).c2sActions = []
      ∧ (relay env).s2cActions = [] ∧ (relay env).result = .error .proxyUnreachable)
    ∧ (∀ e, env.handshakeResult = .error e → env.connectResult = .ok () →
      (relay env).copyPhaseStarted = false ∧ (relay env).c2sActions = []
      ∧ (relay env).s2cActions = [] ∧ (relay env).result = .error (.handshakeFailed e))
    ∧ ((relay env).copyPhaseStarted = true →
      env.connectResult = .ok () ∧ env.handshakeResult = .ok ()) := by
  refine ⟨?_, ?_, ?_⟩
  · intro e he
    simp [relay, he]
  · intro e he hc
    simp [relay, he, hc]
  · intro h
    cases hc : env.connectResult with
    | error e => simp [relay, hc] at h
    | ok v =>
      cases v
      cases hh : env.handshakeResult with
      | error e => simp [relay, hc, hh] at h
      | ok w =>
        cases w
        exact ⟨rfl, rfl⟩

/-- Witness for `handshake_before_relay` at a concrete failing connect. -/
theorem handshake_before_relay_witness :
    (relay envConnectFail).copyPhaseStarted = false
    ∧ (relay envConnectFail).result = .error .proxyUnreachable :=
  ⟨((handshake_before_relay envConnectFail).1 3 rfl).1,
   ((handshake_before_relay envConnectFail).1 3 rfl).2.2.2⟩

/-- C9: nothing but relayed bytes ever goes back over the inbound socket: the
bytes `relay` writes to the inbound side are always an initial segment of
what the outbound peer sent, and in every failure before the copy phase
(proxy unreachable, handshake failure) nothing at all is written to the
inbound side — no application-level error message is ever sent; the inbound
connection is simply dropped. -/
theorem no_error_bytes_to_inbound (env : RelayEnv) :
    writtenBytes (relay env).s2cActions <+: env.s2c.src
    ∧ ((relay env).copyPhaseStarted = false → (relay env).s2cActions = []) := by
  constructor
  · cases hc : env.connectResult with
    | error e => simp [relay, hc, writtenBytes]
    | ok v =>
      cases v
      cases hh : env.handshakeResult with
      | error e => simp [relay, hc, hh, writtenBytes]
      | ok w =>
        cases w
        rw [relay_copyPhase env hc hh]
        exact writtenBytes_runDir _ _
  · intro h
    cases hc : env.connectResult with
    | error e => simp [relay, hc]
    | ok v =>
      cases v
      cases hh : env.handshakeResult with
      | error e => simp [relay, hc, hh]
      | ok w =>
        cases w
        simp [relay, hc, hh] at h

/-- Witness for `no_error_bytes_to_inbound` at a concrete failing
handshake. -/
theorem no_error_bytes_to_inbound_witness :
    writtenBytes (relay envHandshakeFail).s2cActions <+: envHandshakeFail.s2c.src
    ∧ (relay envHandshakeFail).s2cActions = [] :=
  ⟨(no_error_bytes_to_inbound envHandshakeFail).1,
   (no_error_bytes_to_inbound envHandshakeFail).2 rfl⟩

end SocksForwarder
